import Mathlib

/-!
Shallow embedding of the multi-session terminal multiplexer of `sshs`
(files `src/ssh.rs`, `src/ui/tabs.rs`, `src/ui/session.rs`), together with
theorems settling the stated properties of the tab registry, the terminal
scrollback buffer and the SSH session state machine.

Conventions of the embedding:
* Rust `Vec`/`VecDeque` become `List` (front of the list = front of the deque);
* `usize`/`u32` become `Nat` (none of the modelled code can overflow or
  underflow: every subtraction in the source is guarded by a comparison);
* process handles (`Child`), PTY handles and channel endpoints become
  `Option Unit` — only their presence is observable in the modelled logic;
* `std::time::Instant` values are irrelevant to every modelled property and
  are abstracted to `Option Unit` / an explicit numeric parameter;
* fallible operations (`anyhow::Result`) become `Except String` or a
  `_ × Bool` pair, matching the `Result` / `bool` return types of the source;
* a Rust panic is modelled as `Option.none`.
-/

namespace Sshs

/-- Host record from `src/ssh.rs` (`pub struct Host`). -/
structure Host where
  name : String
  aliases : String
  user : Option String
  destination : String
  port : Option String
  proxy_command : Option String
deriving DecidableEq

/-! ### `src/ui/tabs.rs` -/

/-- `MAX_SESSIONS`: maximum number of concurrent sessions (tabs.rs line 7). -/
def MAX_SESSIONS : Nat := 20

/-- `SessionStatus` enum of tabs.rs. -/
inductive SessionStatus where
  | Connected
  | Reconnecting
  | Disconnected
deriving DecidableEq

/-- `ActivityIndicators` struct of tabs.rs. -/
structure ActivityIndicators where
  has_new_output : Bool
  has_error : Bool
  has_background_activity : Bool
deriving DecidableEq

/-- `Session` struct of tabs.rs.  `ssh_process : Option Unit` models the
presence of the `Option<Child>` handle; `last_activity` abstracts the
`Option<Instant>` timestamp. -/
structure Session where
  id : Nat
  host : Host
  ssh_process : Option Unit
  is_active : Bool
  status : SessionStatus
  activity : ActivityIndicators
  last_activity : Option Unit
deriving DecidableEq

/-- `Session::new` (tabs.rs lines 46-60). -/
def Session.new (id : Nat) (host : Host) : Session :=
  { id := id
    host := host
    ssh_process := none
    is_active := false
    status := SessionStatus.Connected
    activity := { has_new_output := false, has_error := false, has_background_activity := false }
    last_activity := none }

/-- `Session::tab_display_name` (tabs.rs lines 64-83): pushes `*`, `!`, `@`
in that order, then formats `[id:name]` or `[id:name+indicators]`. -/
def Session.tab_display_name (s : Session) : String :=
  let indicators :=
    (if s.activity.has_new_output then "*" else "")
      ++ (if s.activity.has_error then "!" else "")
      ++ (if s.activity.has_background_activity then "@" else "")
  if indicators.isEmpty then
    "[" ++ toString s.id ++ ":" ++ s.host.name ++ "]"
  else
    "[" ++ toString s.id ++ ":" ++ s.host.name ++ indicators ++ "]"

/-- `Session::clear_activity_indicators` (tabs.rs lines 110-113): clears only
`has_new_output`; error and background activity are kept. -/
def Session.clear_activity_indicators (s : Session) : Session :=
  { s with activity := { s.activity with has_new_output := false } }

/-- Model of `Vec::get_mut(i)` followed by an in-place update: apply `f` at
index `i`, leave the list unchanged when `i` is out of bounds. -/
def modifyAt : List α → Nat → (α → α) → List α
  | [], _, _ => []
  | x :: xs, 0, f => f x :: xs
  | x :: xs, i + 1, f => x :: modifyAt xs i f

/-- `TabManager` struct of tabs.rs (lines 126-130). -/
structure TabManager where
  sessions : List Session
  current_session_index : Nat
  next_session_id : Nat
deriving DecidableEq

/-- `TabManager::new` (tabs.rs lines 135-141). -/
def TabManager.new : TabManager :=
  { sessions := [], current_session_index := 0, next_session_id := 1 }

/-- `TabManager::session_count`. -/
def TabManager.session_count (m : TabManager) : Nat :=
  m.sessions.length

/-- `TabManager::has_sessions`. -/
def TabManager.has_sessions (m : TabManager) : Bool :=
  !m.sessions.isEmpty

/-- `TabManager::add_session` (tabs.rs lines 148-162): bails out at
`MAX_SESSIONS`, otherwise pushes a new session, increments the id counter and
switches to the new session (`current = sessions.len() - 1`).  Returns the new
session id on success. -/
def TabManager.add_session (m : TabManager) (host : Host) :
    Except String (TabManager × Nat) :=
  if m.sessions.length ≥ MAX_SESSIONS then
    Except.error "Maximum number of sessions (20) reached"
  else
    let session_id := m.next_session_id
    let sessions := m.sessions ++ [Session.new session_id host]
    Except.ok
      ({ sessions := sessions
         current_session_index := sessions.length - 1
         next_session_id := m.next_session_id + 1 }, session_id)

/-- `TabManager::switch_to_session` (tabs.rs lines 165-172): 1-based index,
rejects `0` and indices past the end, otherwise sets `current = index - 1`. -/
def TabManager.switch_to_session (m : TabManager) (one_based_index : Nat) :
    TabManager × Bool :=
  if one_based_index = 0 ∨ one_based_index > m.sessions.length then
    (m, false)
  else
    ({ m with current_session_index := one_based_index - 1 }, true)

/-- `TabManager::switch_to_session_and_clear_activity` (tabs.rs lines
238-247): on a successful switch, clears the activity indicators of the newly
current session. -/
def TabManager.switch_to_session_and_clear_activity (m : TabManager)
    (one_based_index : Nat) : TabManager × Bool :=
  let r := m.switch_to_session one_based_index
  if r.2 then
    ({ r.1 with
        sessions := modifyAt r.1.sessions r.1.current_session_index
          Session.clear_activity_indicators }, true)
  else
    (r.1, false)

/-- `TabManager::disconnect_session` (tabs.rs lines 250-268): index-checked;
sets the status to `Disconnected`, takes (kills) the process handle and sets
the error indicator.  Does not remove the tab. -/
def TabManager.disconnect_session (m : TabManager) (session_index : Nat) :
    TabManager × Bool :=
  match m.sessions.get? session_index with
  | some _ =>
      ({ m with
          sessions := modifyAt m.sessions session_index fun s =>
            { s with
                status := SessionStatus.Disconnected
                ssh_process := none
                activity := { s.activity with has_error := true } } }, true)
  | none => (m, false)

/-- `TabManager::rename_session` (tabs.rs lines 271-278). -/
def TabManager.rename_session (m : TabManager) (session_index : Nat)
    (new_name : String) : TabManager × Bool :=
  match m.sessions.get? session_index with
  | some _ =>
      ({ m with
          sessions := modifyAt m.sessions session_index fun s =>
            { s with host := { s.host with name := new_name } } }, true)
  | none => (m, false)

/-- `TabManager::close_session` (tabs.rs lines 282-312): index-checked; takes
the process handle (kill), removes the session, then re-derives
`current_session_index` exactly as the source does: reset to `0` when empty,
clamp to the new last index when at/past the end, shift down by one when the
current index was after the removed one, otherwise leave unchanged. -/
def TabManager.close_session (m : TabManager) (session_index : Nat) :
    TabManager × Bool :=
  if session_index ≥ m.sessions.length then
    (m, false)
  else
    let sessions :=
      (modifyAt m.sessions session_index fun s =>
        { s with ssh_process := none }).eraseIdx session_index
    let idx :=
      if sessions.isEmpty then 0
      else if m.current_session_index ≥ sessions.length then sessions.length - 1
      else if m.current_session_index > session_index then m.current_session_index - 1
      else m.current_session_index
    ({ m with sessions := sessions, current_session_index := idx }, true)

/-- The per-tab strings built inside `TabManager::tab_bar_display` (tabs.rs
lines 211-222): label of each session in order, the current one prefixed with
the `▶` marker by the renderer. -/
def TabManager.tab_bar_entries (m : TabManager) : List String :=
  m.sessions.enum.map fun p =>
    if p.1 = m.current_session_index then "▶" ++ p.2.tab_display_name
    else p.2.tab_display_name

/-- `TabManager::tab_bar_display` (tabs.rs lines 206-223): empty string on an
empty registry, otherwise the concatenation of all per-tab strings. -/
def TabManager.tab_bar_display (m : TabManager) : String :=
  if m.sessions.isEmpty then "" else String.join m.tab_bar_entries

/-- One mutating call on a `TabManager`, with its arguments. -/
inductive TabOp where
  | add (host : Host)
  | switch (one_based_index : Nat)
  | switchClear (one_based_index : Nat)
  | close (session_index : Nat)
  | disconnect (session_index : Nat)
  | rename (session_index : Nat) (new_name : String)

/-- Applies one operation, discarding the returned id / success flag (the
manager state the source keeps is the same whether or not the caller reads
the return value). -/
def applyOp (m : TabManager) : TabOp → TabManager
  | TabOp.add host =>
      match m.add_session host with
      | Except.ok (m', _) => m'
      | Except.error _ => m
  | TabOp.switch n => (m.switch_to_session n).1
  | TabOp.switchClear n => (m.switch_to_session_and_clear_activity n).1
  | TabOp.close i => (m.close_session i).1
  | TabOp.disconnect i => (m.disconnect_session i).1
  | TabOp.rename i name => (m.rename_session i name).1

/-- Runs a sequence of operations from `TabManager::new()`. -/
def runOps (ops : List TabOp) : TabManager :=
  ops.foldl applyOp TabManager.new

/-- The index invariant of the spec: `current_session_index < session_count`
on a non-empty registry, `current_session_index = 0` on an empty one. -/
def indexInvariant (m : TabManager) : Prop :=
  (m.sessions ≠ [] → m.current_session_index < m.session_count) ∧
  (m.sessions = [] → m.current_session_index = 0)

/-! ### `src/ui/session.rs` -/

/-- `ConnectionState` enum of session.rs. -/
inductive ConnectionState where
  | Connecting
  | Connected
  | Disconnected
  | Error (msg : String)
  | Reconnecting
deriving DecidableEq

/-- `ActivityIndicator` enum of session.rs. -/
inductive ActivityIndicator where
  | None
  | NewOutput
  | Error
  | BackgroundActivity
deriving DecidableEq

/-- `SessionConfig` of session.rs; `connection_timeout` is kept in seconds. -/
structure SessionConfig where
  max_scrollback_lines : Nat
  connection_timeout : Nat
  auto_reconnect : Bool
  max_reconnect_attempts : Nat
deriving DecidableEq

/-- `SessionConfig::default` (session.rs lines 54-61). -/
def SessionConfig.default : SessionConfig :=
  { max_scrollback_lines := 10000
    connection_timeout := 30
    auto_reconnect := true
    max_reconnect_attempts := 3 }

/-- `TerminalBuffer` of session.rs.  The `vt100::Parser` field is external
library state and is not modelled: `process_data` below is parametrized by
the lines that parser extracts from the raw bytes.  The `last_viewed`
`Instant` is dropped for the same reason. -/
structure TerminalBuffer where
  scrollback : List String
  max_lines : Nat
  has_new_output : Bool
deriving DecidableEq

/-- `TerminalBuffer::new` (session.rs lines 74-82). -/
def TerminalBuffer.new (max_lines : Nat) : TerminalBuffer :=
  { scrollback := [], max_lines := max_lines, has_new_output := false }

/-- One iteration of the scrollback loop in `TerminalBuffer::process_data`
(session.rs lines 94-101): `push_back(line)`, then `pop_front()` if the
length exceeds `max_lines`. -/
def pushScrollbackLine (max_lines : Nat) (sb : List String) (line : String) :
    List String :=
  let sb := sb ++ [line]
  if sb.length > max_lines then sb.drop 1 else sb

/-- `TerminalBuffer::process_data` (session.rs lines 85-102).  The raw bytes
are fed to the external `vt100` parser and the resulting screen-contents
lines are iterated; the function is therefore parametrized directly by that
line list, which quantifies over every possible byte input. -/
def TerminalBuffer.process_data (buf : TerminalBuffer) (lines : List String) :
    TerminalBuffer :=
  { buf with
      has_new_output := true
      scrollback := lines.foldl (pushScrollbackLine buf.max_lines) buf.scrollback }

/-- `TerminalBuffer::mark_viewed` (session.rs lines 125-128). -/
def TerminalBuffer.mark_viewed (buf : TerminalBuffer) : TerminalBuffer :=
  { buf with has_new_output := false }

/-- Model of `<[char]>::starts_with` on character lists (used to build the
substring check below). -/
def leadsWith : List Char → List Char → Bool
  | [], _ => true
  | _ :: _, [] => false
  | p :: ps, h :: hs => p == h && leadsWith ps hs

/-- Model of Rust `str::contains(pat)` on character lists: `pat` occurs as a
contiguous substring of `hay`. -/
def containsCh (pat : List Char) : List Char → Bool
  | [] => leadsWith pat []
  | c :: rest => leadsWith pat (c :: rest) || containsCh pat rest

/-- Model of `str::to_lowercase` (ASCII case folding; every input the
modelled properties touch is ASCII). -/
def lowerStr (s : String) : String :=
  ⟨s.data.map Char.toLower⟩

/-- `TerminalBuffer::search` (session.rs lines 131-141): iterates the
scrollback with indices and keeps the `(index, line)` pairs whose lowercased
line contains the lowercased query. -/
def TerminalBuffer.search (buf : TerminalBuffer) (query : String) :
    List (Nat × String) :=
  List.filter (fun p => containsCh (lowerStr query).data (lowerStr p.2).data)
    buf.scrollback.enum

/-- UTF-8 encoding of one unicode scalar value. -/
def utf8EncodeChar (n : Nat) : List Nat :=
  if n < 128 then [n]
  else if n < 2048 then [192 + n / 64, 128 + n % 64]
  else if n < 65536 then [224 + n / 4096, 128 + (n / 64) % 64, 128 + n % 64]
  else [240 + n / 262144, 128 + (n / 4096) % 64, 128 + (n / 64) % 64, 128 + n % 64]

/-- UTF-8 byte sequence of a string — the bytes Rust's `String`/`str` store,
on which `str::len` and byte slicing operate. -/
def utf8Bytes (s : String) : List Nat :=
  (s.data.map fun c => utf8EncodeChar c.toNat).flatten

/-- Rust `str::is_char_boundary(i)` on the UTF-8 bytes: true at `0` and at
the total length, otherwise true iff the byte at `i` is not a UTF-8
continuation byte. -/
def isCharBoundary (bytes : List Nat) (i : Nat) : Bool :=
  if i = 0 then true
  else
    match bytes.get? i with
    | some b => b < 128 || 192 ≤ b
    | none => i = bytes.length

/-- `SshSession::generate_display_name` (session.rs lines 210-220), modelled
at the byte level on which it operates: `name.len()` is the UTF-8 byte
length and `&name[..12]` is a byte slice.  The byte slice panics when byte
index 12 is not a character boundary; a panic is modelled as `none`. -/
def SshSession.generate_display_name (name : List Nat) : Option (List Nat) :=
  if name.length > 15 then
    if isCharBoundary name 12 then some (name.take 12 ++ [46, 46, 46])
    else none
  else
    some name

/-- `SshSession` of session.rs.  `display_name` is kept as the UTF-8 bytes
produced by `generate_display_name`; PTY, process and channel handles are
`Option Unit`; the `last_activity` `Instant` is dropped. -/
structure SshSession where
  host : Host
  id : String
  display_name : List Nat
  state : ConnectionState
  activity : ActivityIndicator
  terminal : TerminalBuffer
  pty_master : Option Unit
  child_process : Option Unit
  config : SessionConfig
  reconnect_attempts : Nat
  data_receiver : Option Unit
  command_sender : Option Unit
deriving DecidableEq

/-- `SshSession::new` (session.rs lines 188-207).  The id embeds an
`Instant`-derived millisecond count, passed here explicitly; the result is
`none` exactly when `generate_display_name` panics. -/
def SshSession.new (host : Host) (config : SessionConfig) (now_millis : Nat) :
    Option SshSession :=
  match SshSession.generate_display_name (utf8Bytes host.name) with
  | some dn =>
      some
        { host := host
          id := host.name ++ "_" ++ toString now_millis
          display_name := dn
          state := ConnectionState.Disconnected
          activity := ActivityIndicator.None
          terminal := TerminalBuffer.new config.max_scrollback_lines
          pty_master := none
          child_process := none
          config := config
          reconnect_attempts := 0
          data_receiver := none
          command_sender := none }
  | none => none

/-- `SshSession::connect` (session.rs lines 223-280), parametrized by the
outcome of `spawn_command` (`spawn_ok`, with `spawn_err` the error text on
failure): sets `Connecting`, then on success stores the child and PTY
handles, sets `Connected` and installs the data channels
(`setup_data_channels`); on failure sets `Error(..)` and the error activity
indicator.  The returned `Bool` is `Ok`/`Err`. -/
def SshSession.connect (s : SshSession) (spawn_ok : Bool) (spawn_err : String) :
    SshSession × Bool :=
  let s := { s with state := ConnectionState.Connecting
                    activity := ActivityIndicator.None }
  if spawn_ok then
    ({ s with
        child_process := some ()
        pty_master := some ()
        state := ConnectionState.Connected
        data_receiver := some ()
        command_sender := some () }, true)
  else
    ({ s with
        state := ConnectionState.Error ("Failed to start SSH: " ++ spawn_err)
        activity := ActivityIndicator.Error }, false)

/-- `SshSession::disconnect` (session.rs lines 389-402): kills the child,
drops every handle and channel endpoint, sets `Disconnected`. -/
def SshSession.disconnect (s : SshSession) : SshSession :=
  { s with
      child_process := none
      pty_master := none
      data_receiver := none
      command_sender := none
      state := ConnectionState.Disconnected }

/-- The first two statements of the retry branch of `SshSession::reconnect`
(session.rs lines 375-376): increment the attempt counter and set
`Reconnecting`. -/
def SshSession.reconnect_begin (s : SshSession) : SshSession :=
  { s with
      reconnect_attempts := s.reconnect_attempts + 1
      state := ConnectionState.Reconnecting }

/-- `SshSession::reconnect` (session.rs lines 369-386): when the attempt
counter has reached `max_reconnect_attempts`, set the terminal error state
and return `Err` without attempting a connection; otherwise increment the
counter, set `Reconnecting`, tear down the old connection, sleep (a pure
no-op here) and call `connect`. -/
def SshSession.reconnect (s : SshSession) (spawn_ok : Bool) (spawn_err : String) :
    SshSession × Bool :=
  if s.reconnect_attempts ≥ s.config.max_reconnect_attempts then
    ({ s with state := ConnectionState.Error "Max reconnection attempts exceeded" },
      false)
  else
    SshSession.connect (SshSession.disconnect (SshSession.reconnect_begin s))
      spawn_ok spawn_err

/-! ### Spec-side definitions and concrete example values -/

/-- Folds `add_session` over a host list from `TabManager::new()`, counting
the successful calls. -/
def add_session_fold (hosts : List Host) : TabManager × Nat :=
  hosts.foldl
    (fun p h =>
      match TabManager.add_session p.1 h with
      | Except.ok (m', _) => (m', p.2 + 1)
      | Except.error _ => (p.1, p.2))
    (TabManager.new, 0)

/-- Folds `reconnect` over a list of spawn outcomes, keeping the session. -/
def reconnectRuns (s : SshSession) (calls : List (Bool × String)) : SshSession :=
  calls.foldl (fun s c => (SshSession.reconnect s c.1 c.2).1) s

/-- The active-index re-derivation of `close_tab` exactly as the claim words
it, for comparison with `close_session` — reset to 0 when the registry empties,
decrease by exactly one (clamped to the new last index) when the removed
index was before or at the active index, unchanged when strictly after. -/
def closeIndexClaimed (cur len i : Nat) : Nat :=
  if len - 1 = 0 then 0
  else if i ≤ cur then min (cur - 1) (len - 2)
  else cur

/-- The active-index re-derivation `close_session` actually performs, stated
per removal position: removal strictly before the active index decreases it
by exactly one (clamped to the new last index); removal at the active index
leaves it unchanged (clamped to the new last index, which moves it only when
the active index was the last position); removal strictly after leaves it
unchanged. -/
def closeIndexAmended (cur len i : Nat) : Nat :=
  if len - 1 = 0 then 0
  else if i < cur then min (cur - 1) (len - 2)
  else if i = cur then min cur (len - 2)
  else cur

/-- The activity suffix of a tab label as the claim words it — `*`, `!`,
`@` concatenated in that fixed order, empty when no flag is set. -/
def activity_suffix (a : ActivityIndicators) : String :=
  (if a.has_new_output then "*" else "")
    ++ (if a.has_error then "!" else "")
    ++ (if a.has_background_activity then "@" else "")

/-- The tab label format as the claim words it:
`[<id>:<name><activity-suffix>]` with no special case for an empty suffix. -/
def tab_label_spec (id : Nat) (name : String) (a : ActivityIndicators) : String :=
  "[" ++ toString id ++ ":" ++ name ++ activity_suffix a ++ "]"

/-- Concrete host used by the concrete-input theorems. -/
def hostEx : Host :=
  { name := "prod-web"
    aliases := ""
    user := some "root"
    destination := "prod-web.com"
    port := some "22"
    proxy_command := none }

/-- Three sessions, active index 1 (after `switch_to_session 2`). -/
def exampleManager3 : TabManager :=
  runOps [TabOp.add hostEx, TabOp.add hostEx, TabOp.add hostEx, TabOp.switch 2]

/-- Fifteen sessions, active index 7 (after `switch_to_session 8`). -/
def exampleManager15 : TabManager :=
  runOps (List.replicate 15 (TabOp.add hostEx) ++ [TabOp.switch 8])

/-- Twenty sessions: the registry at its capacity bound. -/
def exampleManager20 : TabManager :=
  runOps (List.replicate 20 (TabOp.add hostEx))

/-- Terminal buffer whose scrollback is `["abc", "XYZ abc", "def"]`. -/
def exampleBuffer : TerminalBuffer :=
  { scrollback := ["abc", "XYZ abc", "def"], max_lines := 100, has_new_output := false }

/-- A session whose reconnection budget (the default 3) is exhausted. -/
def exampleSession : SshSession :=
  { host := hostEx
    id := "prod-web_0"
    display_name := utf8Bytes "prod-web"
    state := ConnectionState.Disconnected
    activity := ActivityIndicator.None
    terminal := TerminalBuffer.new 10000
    pty_master := none
    child_process := none
    config := SessionConfig.default
    reconnect_attempts := 3
    data_receiver := none
    command_sender := none }

/-- The session `SshSession::new(hostEx, default, 0)` constructs. -/
def exampleSessionNew : SshSession :=
  { exampleSession with reconnect_attempts := 0 }

/-! ### Helper lemmas -/

theorem modifyAt_length (l : List α) (i : Nat) (f : α → α) :
    (modifyAt l i f).length = l.length := by
  induction l generalizing i with
  | nil => rfl
  | cons x xs ih =>
    cases i with
    | zero => rfl
    | succ j => simp [modifyAt, ih]

theorem eraseIdx_modifyAt (l : List α) (i : Nat) (f : α → α) :
    (modifyAt l i f).eraseIdx i = l.eraseIdx i := by
  induction l generalizing i with
  | nil => rfl
  | cons x xs ih =>
    cases i with
    | zero => rfl
    | succ j => simp [modifyAt, List.eraseIdx, ih]

theorem modifyAt_get?_self (l : List α) (i : Nat) (f : α → α) :
    (modifyAt l i f).get? i = (l.get? i).map f := by
  induction l generalizing i with
  | nil => rfl
  | cons x xs ih =>
    cases i with
    | zero => rfl
    | succ j => simpa [modifyAt] using ih j

theorem modifyAt_get?_ne (l : List α) (i j : Nat) (f : α → α) (h : j ≠ i) :
    (modifyAt l i f).get? j = l.get? j := by
  induction l generalizing i j with
  | nil => rfl
  | cons x xs ih =>
    cases i with
    | zero =>
      cases j with
      | zero => exact absurd rfl h
      | succ k => rfl
    | succ i' =>
      cases j with
      | zero => rfl
      | succ k => simpa [modifyAt] using ih i' k (by omega)

/-- The index computed by the tail of `close_session` is in range whenever
the remaining session list is non-empty. -/
theorem close_index_lt (A : List Session) (cur i : Nat) (hA : A ≠ []) :
    (if A.isEmpty then 0
     else if cur ≥ A.length then A.length - 1
     else if cur > i then cur - 1
     else cur) < A.length := by
  have hlen : 0 < A.length := List.length_pos.mpr hA
  have hne : A.isEmpty = false := by
    cases A with
    | nil => exact absurd rfl hA
    | cons a as => rfl
  rw [hne]
  by_cases h1 : cur ≥ A.length
  · simp [h1]; omega
  · by_cases h2 : cur > i
    · simp [h1, h2]; omega
    · simp [h1, h2]; omega

/-- Equation: `add_session` at capacity fails with the capacity error. -/
theorem add_session_at_capacity (m : TabManager) (host : Host)
    (h : m.sessions.length ≥ MAX_SESSIONS) :
    m.add_session host = Except.error "Maximum number of sessions (20) reached" := by
  unfold TabManager.add_session
  rw [if_pos h]

/-- Equation: `add_session` under capacity appends and switches. -/
theorem add_session_ok (m : TabManager) (host : Host)
    (h : ¬ m.sessions.length ≥ MAX_SESSIONS) :
    m.add_session host =
      Except.ok
        ({ sessions := m.sessions ++ [Session.new m.next_session_id host]
           current_session_index :=
             (m.sessions ++ [Session.new m.next_session_id host]).length - 1
           next_session_id := m.next_session_id + 1 }, m.next_session_id) := by
  unfold TabManager.add_session
  rw [if_neg h]

/-- Equation: `switch_to_session` on an invalid 1-based index. -/
theorem switch_to_session_invalid (m : TabManager) (n : Nat)
    (h : n = 0 ∨ n > m.sessions.length) :
    m.switch_to_session n = (m, false) := by
  unfold TabManager.switch_to_session
  rw [if_pos h]

/-- Equation: `switch_to_session` on a valid 1-based index. -/
theorem switch_to_session_valid (m : TabManager) (n : Nat)
    (h : ¬ (n = 0 ∨ n > m.sessions.length)) :
    m.switch_to_session n = ({ m with current_session_index := n - 1 }, true) := by
  unfold TabManager.switch_to_session
  rw [if_neg h]

/-- Equation: `switch_to_session_and_clear_activity` on an invalid index. -/
theorem switch_clear_invalid (m : TabManager) (n : Nat)
    (h : n = 0 ∨ n > m.sessions.length) :
    m.switch_to_session_and_clear_activity n = (m, false) := by
  unfold TabManager.switch_to_session_and_clear_activity
  rw [switch_to_session_invalid m n h]
  rfl

/-- Equation: `switch_to_session_and_clear_activity` on a valid index. -/
theorem switch_clear_valid (m : TabManager) (n : Nat)
    (h : ¬ (n = 0 ∨ n > m.sessions.length)) :
    m.switch_to_session_and_clear_activity n =
      ({ m with
          sessions := modifyAt m.sessions (n - 1) Session.clear_activity_indicators
          current_session_index := n - 1 }, true) := by
  unfold TabManager.switch_to_session_and_clear_activity
  rw [switch_to_session_valid m n h]
  rfl

/-- Equation: `close_session` on an out-of-range index. -/
theorem close_session_invalid (m : TabManager) (i : Nat)
    (h : i ≥ m.sessions.length) :
    m.close_session i = (m, false) := by
  unfold TabManager.close_session
  rw [if_pos h]

/-- Equation: `close_session` on a valid index, with the killed-process
update absorbed by the removal. -/
theorem close_session_valid (m : TabManager) (i : Nat)
    (h : ¬ i ≥ m.sessions.length) :
    m.close_session i =
      ({ m with
          sessions := m.sessions.eraseIdx i
          current_session_index :=
            if (m.sessions.eraseIdx i).isEmpty then 0
            else if m.current_session_index ≥ (m.sessions.eraseIdx i).length then
              (m.sessions.eraseIdx i).length - 1
            else if m.current_session_index > i then m.current_session_index - 1
            else m.current_session_index }, true) := by
  unfold TabManager.close_session
  rw [if_neg h, eraseIdx_modifyAt]

/-- Equation: `disconnect_session` on an existing index. -/
theorem disconnect_session_some (m : TabManager) (i : Nat) (s : Session)
    (hget : m.sessions.get? i = some s) :
    m.disconnect_session i =
      ({ m with
          sessions := modifyAt m.sessions i fun s =>
            { s with
                status := SessionStatus.Disconnected
                ssh_process := none
                activity := { s.activity with has_error := true } } }, true) := by
  unfold TabManager.disconnect_session
  rw [hget]

/-- Equation: `disconnect_session` on a missing index. -/
theorem disconnect_session_none (m : TabManager) (i : Nat)
    (hget : m.sessions.get? i = none) :
    m.disconnect_session i = (m, false) := by
  unfold TabManager.disconnect_session
  rw [hget]

/-- Equation: `rename_session` on an existing index. -/
theorem rename_session_some (m : TabManager) (i : Nat) (s : Session)
    (name : String) (hget : m.sessions.get? i = some s) :
    m.rename_session i name =
      ({ m with
          sessions := modifyAt m.sessions i fun s =>
            { s with host := { s.host with name := name } } }, true) := by
  unfold TabManager.rename_session
  rw [hget]

/-- Equation: `rename_session` on a missing index. -/
theorem rename_session_none (m : TabManager) (i : Nat) (name : String)
    (hget : m.sessions.get? i = none) :
    m.rename_session i name = (m, false) := by
  unfold TabManager.rename_session
  rw [hget]

/-- A list obtained by `modifyAt` is nil exactly when the input is. -/
theorem modifyAt_eq_nil_iff (l : List α) (i : Nat) (f : α → α) :
    modifyAt l i f = [] ↔ l = [] := by
  constructor
  · intro h
    have := congrArg List.length h
    simp [modifyAt_length] at this
    exact this
  · intro h
    subst h
    rfl

/-- `indexInvariant` is preserved by every `TabManager` operation. -/
theorem indexInvariant_applyOp (m : TabManager) (op : TabOp)
    (h : indexInvariant m) : indexInvariant (applyOp m op) := by
  obtain ⟨h1, h2⟩ := h
  cases op with
  | add host =>
    by_cases hlen : m.sessions.length ≥ MAX_SESSIONS
    · simpa [applyOp, add_session_at_capacity m host hlen] using ⟨h1, h2⟩
    · simp only [applyOp, add_session_ok m host hlen]
      constructor
      · intro _
        simp [TabManager.session_count]
      · intro hemp
        exact absurd hemp (by simp)
  | switch n =>
    by_cases hg : n = 0 ∨ n > m.sessions.length
    · simpa [applyOp, switch_to_session_invalid m n hg] using ⟨h1, h2⟩
    · simp only [applyOp, switch_to_session_valid m n hg]
      push_neg at hg
      constructor
      · intro _
        simp only [TabManager.session_count]
        omega
      · intro hemp
        exfalso
        have h0 : m.sessions = [] := hemp
        have : m.sessions.length = 0 := by simp [h0]
        omega
  | switchClear n =>
    by_cases hg : n = 0 ∨ n > m.sessions.length
    · simpa [applyOp, switch_clear_invalid m n hg] using ⟨h1, h2⟩
    · simp only [applyOp, switch_clear_valid m n hg]
      push_neg at hg
      constructor
      · intro _
        simp only [TabManager.session_count, modifyAt_length]
        omega
      · intro hemp
        exfalso
        have h0 : modifyAt m.sessions (n - 1) Session.clear_activity_indicators = [] :=
          hemp
        rw [modifyAt_eq_nil_iff] at h0
        have : m.sessions.length = 0 := by simp [h0]
        omega
  | close i =>
    by_cases hg : i ≥ m.sessions.length
    · simpa [applyOp, close_session_invalid m i hg] using ⟨h1, h2⟩
    · simp only [applyOp, close_session_valid m i hg]
      constructor
      · intro hne
        simpa [TabManager.session_count] using
          close_index_lt _ m.current_session_index i hne
      · intro hemp
        have h0 : m.sessions.eraseIdx i = [] := hemp
        simp [h0]
  | disconnect i =>
    cases hget : m.sessions.get? i with
    | none => simpa [applyOp, disconnect_session_none m i hget] using ⟨h1, h2⟩
    | some s =>
      simp only [applyOp, disconnect_session_some m i s hget]
      constructor
      · intro hne
        have hne' : m.sessions ≠ [] := fun h0 => hne (by simp [h0, modifyAt])
        simpa [TabManager.session_count, modifyAt_length] using h1 hne'
      · intro hemp
        have h0 : modifyAt m.sessions i _ = [] := hemp
        rw [modifyAt_eq_nil_iff] at h0
        exact h2 h0
  | rename i name =>
    cases hget : m.sessions.get? i with
    | none => simpa [applyOp, rename_session_none m i name hget] using ⟨h1, h2⟩
    | some s =>
      simp only [applyOp, rename_session_some m i s name hget]
      constructor
      · intro hne
        have hne' : m.sessions ≠ [] := fun h0 => hne (by simp [h0, modifyAt])
        simpa [TabManager.session_count, modifyAt_length] using h1 hne'
      · intro hemp
        have h0 : modifyAt m.sessions i _ = [] := hemp
        rw [modifyAt_eq_nil_iff] at h0
        exact h2 h0

theorem foldl_applyOp_invariant (ops : List TabOp) (m : TabManager)
    (h : indexInvariant m) : indexInvariant (ops.foldl applyOp m) := by
  induction ops generalizing m with
  | nil => exact h
  | cons op rest ih => exact ih _ (indexInvariant_applyOp m op h)

/-! ### Claim theorems -/

/-- C1: for every sequence of `TabManager` operations starting from
`TabManager::new()`, the active index is always strictly below the session
count when the session list is non-empty, and equals 0 when it is empty. -/
theorem C1_tab_index_invariant (ops : List TabOp) : indexInvariant (runOps ops) :=
  foldl_applyOp_invariant ops TabManager.new ⟨fun h => absurd rfl h, fun _ => rfl⟩

/-- Witness for C1 at the concrete sequence `[add hostEx]`. -/
theorem C1_tab_index_invariant_witness :
    (runOps [TabOp.add hostEx]).current_session_index <
      (runOps [TabOp.add hostEx]).session_count :=
  (C1_tab_index_invariant [TabOp.add hostEx]).1 (by decide)

/-- The index computed by `close_session` equals the amended per-position
description, for an in-range active index. -/
theorem close_index_arith (cur len i : Nat) (hi : i < len)
    (L : List Session) (hL : L.length = len - 1) :
    (if L.isEmpty then 0
     else if cur ≥ L.length then L.length - 1
     else if cur > i then cur - 1
     else cur) = closeIndexAmended cur len i := by
  unfold closeIndexAmended
  by_cases h0 : L.length = 0
  · have he : L.isEmpty = true := by
      cases L with
      | nil => rfl
      | cons a as => simp at h0
    rw [if_pos he, if_pos (show len - 1 = 0 by omega)]
  · have he : L.isEmpty = false := by
      cases L with
      | nil => simp at h0
      | cons a as => rfl
    rw [if_neg (by simp [he]), if_neg (show ¬ len - 1 = 0 by omega), hL]
    rw [hL] at h0
    split_ifs <;> omega

/-- C2 (amended): for every registry and every valid index, `close_session`
removes the session at that index and re-derives the active index: 0 when
the registry becomes empty; decreased by exactly one (clamped to the new
last index) when the removed index was strictly before the active index;
unchanged (clamped to the new last index) when the removed index was the
active index itself; unchanged when the removed index was strictly after the
active index. -/
theorem C2_close_session_spec (m : TabManager) (i : Nat)
    (hi : i < m.session_count) :
    m.close_session i =
      ({ m with
          sessions := m.sessions.eraseIdx i
          current_session_index :=
            closeIndexAmended m.current_session_index m.session_count i }, true) := by
  have hg : ¬ i ≥ m.sessions.length := by
    simp only [TabManager.session_count] at hi
    omega
  have hL : (m.sessions.eraseIdx i).length = m.sessions.length - 1 := by
    rw [List.length_eraseIdx, if_pos (by omega)]
  rw [close_session_valid m i hg,
    close_index_arith m.current_session_index m.sessions.length i (by omega)
      (m.sessions.eraseIdx i) hL]
  rfl

/-- Witness for C2's amended theorem: closing the middle session of a
three-session registry whose active index is 1. -/
theorem C2_close_session_spec_witness :
    exampleManager3.close_session 1 =
      ({ exampleManager3 with
          sessions := exampleManager3.sessions.eraseIdx 1
          current_session_index :=
            closeIndexAmended exampleManager3.current_session_index
              exampleManager3.session_count 1 }, true) :=
  C2_close_session_spec exampleManager3 1 (by decide)

/-- Counterexample to C2 as stated: in a three-session registry with active
index 1, closing index 1 (at the active index, not at the last position)
leaves the code's active index at 1, while the claimed rule "removed index
before or at the active index decreases it by exactly one" predicts 0. -/
theorem C2_close_session_counterexample :
    (exampleManager3.close_session 1).1.current_session_index ≠
      closeIndexClaimed exampleManager3.current_session_index
        exampleManager3.session_count 1 := by
  decide

/-- Step lemma: the running manager length equals the running success count
along any `add_session` fold. -/
theorem foldl_add_step (hosts : List Host) (p : TabManager × Nat)
    (h : p.1.sessions.length = p.2) :
    (hosts.foldl
      (fun p h =>
        match TabManager.add_session p.1 h with
        | Except.ok (m', _) => (m', p.2 + 1)
        | Except.error _ => (p.1, p.2)) p).1.sessions.length =
    (hosts.foldl
      (fun p h =>
        match TabManager.add_session p.1 h with
        | Except.ok (m', _) => (m', p.2 + 1)
        | Except.error _ => (p.1, p.2)) p).2 := by
  induction hosts generalizing p with
  | nil => exact h
  | cons host rest ih =>
    simp only [List.foldl_cons]
    apply ih
    by_cases hlen : p.1.sessions.length ≥ MAX_SESSIONS
    · simp only [add_session_at_capacity p.1 host hlen]
      exact h
    · simp only [add_session_ok p.1 host hlen]
      simp [h]

/-- C3: over any sequence of `add_session` calls from `TabManager::new()`
the session count equals the number of successful calls, and a call made at
the capacity bound (20) returns the capacity error and leaves the manager
unchanged. -/
theorem C3_add_session_capacity :
    (∀ hosts : List Host,
      (add_session_fold hosts).1.session_count = (add_session_fold hosts).2) ∧
    (∀ (m : TabManager) (host : Host), m.session_count = MAX_SESSIONS →
      m.add_session host = Except.error "Maximum number of sessions (20) reached" ∧
      applyOp m (TabOp.add host) = m) := by
  constructor
  · intro hosts
    exact foldl_add_step hosts (TabManager.new, 0) rfl
  · intro m host hcount
    have hlen : m.sessions.length ≥ MAX_SESSIONS := by
      simp only [TabManager.session_count] at hcount
      omega
    refine ⟨add_session_at_capacity m host hlen, ?_⟩
    simp [applyOp, add_session_at_capacity m host hlen]

/-- Witness for C3: one successful call, and the failing 21st call on a
registry of 20 sessions. -/
theorem C3_add_session_capacity_witness :
    ((add_session_fold [hostEx]).1.session_count = (add_session_fold [hostEx]).2) ∧
    (exampleManager20.add_session hostEx =
        Except.error "Maximum number of sessions (20) reached" ∧
      applyOp exampleManager20 (TabOp.add hostEx) = exampleManager20) :=
  ⟨C3_add_session_capacity.1 [hostEx],
   C3_add_session_capacity.2 exampleManager20 hostEx (by decide)⟩

/-- One scrollback push keeps the length bound. -/
theorem pushScrollbackLine_le (max_lines : Nat) (sb : List String) (line : String)
    (h : sb.length ≤ max_lines) :
    (pushScrollbackLine max_lines sb line).length ≤ max_lines := by
  unfold pushScrollbackLine
  by_cases hgt : (sb ++ [line]).length > max_lines
  · rw [if_pos hgt]
    simp only [List.length_drop, List.length_append, List.length_cons,
      List.length_nil]
    omega
  · rw [if_neg hgt]
    omega

/-- Folding scrollback pushes keeps the length bound. -/
theorem foldl_push_le (lines : List String) (max_lines : Nat) (sb : List String)
    (h : sb.length ≤ max_lines) :
    (lines.foldl (pushScrollbackLine max_lines) sb).length ≤ max_lines := by
  induction lines generalizing sb with
  | nil => exact h
  | cons l rest ih => exact ih _ (pushScrollbackLine_le _ _ _ h)

/-- `process_data` never changes the bound itself. -/
theorem foldl_process_max (calls : List (List String)) (buf : TerminalBuffer) :
    (calls.foldl TerminalBuffer.process_data buf).max_lines = buf.max_lines := by
  induction calls generalizing buf with
  | nil => rfl
  | cons c rest ih => exact ih _

/-- The scrollback bound holds along any sequence of `process_data` calls. -/
theorem foldl_process_le (calls : List (List String)) (buf : TerminalBuffer)
    (h : buf.scrollback.length ≤ buf.max_lines) :
    (calls.foldl TerminalBuffer.process_data buf).scrollback.length ≤
      (calls.foldl TerminalBuffer.process_data buf).max_lines := by
  induction calls generalizing buf with
  | nil => exact h
  | cons c rest ih =>
    apply ih
    show (c.foldl (pushScrollbackLine buf.max_lines) buf.scrollback).length ≤
      buf.max_lines
    exact foldl_push_le c buf.max_lines buf.scrollback h

/-- C4: for every bound and every sequence of `process_data` calls on
whatever lines the parser yields, the scrollback length never exceeds
`max_lines` — both from a fresh buffer and from any in-bound state — and as
soon as a push would exceed the bound the front (oldest) line is popped. -/
theorem C4_scrollback_bound :
    (∀ (max_lines : Nat) (calls : List (List String)),
      (calls.foldl TerminalBuffer.process_data
        (TerminalBuffer.new max_lines)).scrollback.length ≤ max_lines) ∧
    (∀ (buf : TerminalBuffer) (lines : List String),
      buf.scrollback.length ≤ buf.max_lines →
      (buf.process_data lines).scrollback.length ≤ buf.max_lines) ∧
    (∀ (max_lines : Nat) (sb : List String) (line : String),
      sb.length = max_lines →
      pushScrollbackLine max_lines sb line = (sb ++ [line]).drop 1) := by
  refine ⟨?_, ?_, ?_⟩
  · intro max_lines calls
    have h := foldl_process_le calls (TerminalBuffer.new max_lines)
      (by simp [TerminalBuffer.new])
    rwa [foldl_process_max] at h
  · intro buf lines h
    show (lines.foldl (pushScrollbackLine buf.max_lines) buf.scrollback).length ≤
      buf.max_lines
    exact foldl_push_le lines buf.max_lines buf.scrollback h
  · intro max_lines sb line h
    unfold pushScrollbackLine
    rw [if_pos (by simp only [List.length_append, List.length_cons,
      List.length_nil]; omega)]

/-- Witness for C4: bound 2 with three one-line calls; one call on the
example buffer; and a push at capacity evicting the front line. -/
theorem C4_scrollback_bound_witness :
    (((([["a"], ["b"], ["c"]] : List (List String)).foldl
        TerminalBuffer.process_data
        (TerminalBuffer.new 2)).scrollback.length ≤ 2)) ∧
    ((exampleBuffer.process_data ["x"]).scrollback.length ≤
      exampleBuffer.max_lines) ∧
    (pushScrollbackLine 2 ["a", "b"] "c" = (["a", "b"] ++ ["c"]).drop 1) :=
  ⟨C4_scrollback_bound.1 2 [["a"], ["b"], ["c"]],
   C4_scrollback_bound.2.1 exampleBuffer ["x"] (by decide),
   C4_scrollback_bound.2.2 2 ["a", "b"] "c" (by decide)⟩

/-- `get?` on `enumFrom`. -/
theorem enumFrom_get? (n : Nat) (l : List α) (i : Nat) :
    (List.enumFrom n l).get? i = (l.get? i).map (fun a => (n + i, a)) := by
  induction l generalizing n i with
  | nil => rfl
  | cons x xs ih =>
    cases i with
    | zero => simp [List.enumFrom]
    | succ j =>
      simp only [List.enumFrom, List.get?_cons_succ, ih (n + 1) j,
        Nat.add_succ, Nat.succ_add]

/-- `get?` on `enum`. -/
theorem enum_get? (l : List α) (i : Nat) :
    l.enum.get? i = (l.get? i).map (fun a => (i, a)) := by
  have h := enumFrom_get? 0 l i
  simp only [Nat.zero_add] at h
  exact h

/-- C5 (amended): the tab-bar render produces one entry per session, in
session order, regardless of the tab count — no overflow window is
maintained — and the entry of the active tab is the label prefixed with the
`▶` marker. -/
theorem C5_tab_bar_renders_all (m : TabManager) :
    m.tab_bar_entries.length = m.session_count ∧
    m.tab_bar_display = String.join m.tab_bar_entries ∧
    (∀ (i : Nat) (s : Session), m.sessions.get? i = some s →
      m.tab_bar_entries.get? i =
        some (if i = m.current_session_index then "▶" ++ s.tab_display_name
              else s.tab_display_name)) := by
  refine ⟨?_, ?_, ?_⟩
  · simp [TabManager.tab_bar_entries, TabManager.session_count]
  · unfold TabManager.tab_bar_display
    by_cases he : m.sessions.isEmpty
    · rw [if_pos he]
      have h0 : m.sessions = [] := by
        cases hs : m.sessions with
        | nil => rfl
        | cons a as => rw [hs] at he; simp at he
      simp [TabManager.tab_bar_entries, h0, String.join]
    · rw [if_neg he]
  · intro i s hget
    unfold TabManager.tab_bar_entries
    rw [ List.get?_map, enum_get?, hget]
    rfl

/-- Witness for C5's amended theorem on the three-session registry. -/
theorem C5_tab_bar_renders_all_witness :
    exampleManager3.tab_bar_entries.length = exampleManager3.session_count ∧
    exampleManager3.tab_bar_display = String.join exampleManager3.tab_bar_entries ∧
    exampleManager3.tab_bar_entries.get? 0 =
      some (if 0 = exampleManager3.current_session_index then
              "▶" ++ (Session.new 1 hostEx).tab_display_name
            else (Session.new 1 hostEx).tab_display_name) :=
  ⟨(C5_tab_bar_renders_all exampleManager3).1,
   (C5_tab_bar_renders_all exampleManager3).2.1,
   (C5_tab_bar_renders_all exampleManager3).2.2 0 (Session.new 1 hostEx) (by decide)⟩

/-- Counterexample to C5 as stated: with 15 tabs and active index 7 the
renderer emits all 15 tab entries, so the displayed tabs are not restricted
to any 10-wide window centred on the active tab; no overflow state exists. -/
theorem C5_overflow_window_counterexample :
    exampleManager15.session_count = 15 ∧
    exampleManager15.current_session_index = 7 ∧
    exampleManager15.tab_bar_entries.length = 15 ∧
    ¬ exampleManager15.tab_bar_entries.length ≤ 10 := by
  decide

/-- One `reconnect` call keeps the configuration unchanged. -/
theorem reconnect_config (s : SshSession) (ok : Bool) (err : String) :
    (s.reconnect ok err).1.config = s.config := by
  unfold SshSession.reconnect
  by_cases hge : s.reconnect_attempts ≥ s.config.max_reconnect_attempts
  · rw [if_pos hge]
  · rw [if_neg hge]
    unfold SshSession.connect SshSession.disconnect SshSession.reconnect_begin
    cases ok <;> rfl

/-- One `reconnect` call keeps the attempt counter within its bound. -/
theorem reconnect_attempts_step (s : SshSession) (ok : Bool) (err : String)
    (h : s.reconnect_attempts ≤ s.config.max_reconnect_attempts) :
    (s.reconnect ok err).1.reconnect_attempts ≤
      (s.reconnect ok err).1.config.max_reconnect_attempts := by
  unfold SshSession.reconnect
  by_cases hge : s.reconnect_attempts ≥ s.config.max_reconnect_attempts
  · rw [if_pos hge]
    exact h
  · rw [if_neg hge]
    unfold SshSession.connect SshSession.disconnect SshSession.reconnect_begin
    cases ok
    · show s.reconnect_attempts + 1 ≤ s.config.max_reconnect_attempts
      omega
    · show s.reconnect_attempts + 1 ≤ s.config.max_reconnect_attempts
      omega

/-- Folding `reconnect` calls keeps the attempt counter within its bound. -/
theorem reconnectRuns_bound (calls : List (Bool × String)) (s : SshSession)
    (h : s.reconnect_attempts ≤ s.config.max_reconnect_attempts) :
    (reconnectRuns s calls).reconnect_attempts ≤
      (reconnectRuns s calls).config.max_reconnect_attempts := by
  induction calls generalizing s with
  | nil => exact h
  | cons c rest ih => exact ih _ (reconnect_attempts_step s c.1 c.2 h)

/-- Folding `reconnect` calls keeps the configuration unchanged. -/
theorem reconnectRuns_config (calls : List (Bool × String)) (s : SshSession) :
    (reconnectRuns s calls).config = s.config := by
  induction calls generalizing s with
  | nil => rfl
  | cons c rest ih =>
    show (reconnectRuns (s.reconnect c.1 c.2).1 rest).config = s.config
    rw [ih, reconnect_config]

/-- A session constructed by `SshSession::new` starts with the given
configuration and a zero attempt counter. -/
theorem new_some_fields (host : Host) (config : SessionConfig) (millis : Nat)
    (s : SshSession) (h : SshSession.new host config millis = some s) :
    s.config = config ∧ s.reconnect_attempts = 0 := by
  unfold SshSession.new at h
  cases hdn : SshSession.generate_display_name (utf8Bytes host.name) with
  | some dn =>
    rw [hdn] at h
    injection h with h'
    subst h'
    exact ⟨rfl, rfl⟩
  | none =>
    rw [hdn] at h
    exact Option.noConfusion h

/-- C6 (amended): `reconnect` with an exhausted budget sets the terminal
`Error "Max reconnection attempts exceeded"` state and returns an error
without attempting a connection; below the budget it increments the attempt
counter by one and sets `Reconnecting` before tearing down and connecting;
and the counter never exceeds `max_reconnect_attempts` over any call
sequence from a fresh session. -/
theorem C6_reconnect_bound :
    (∀ (s : SshSession) (ok : Bool) (err : String),
      s.reconnect_attempts ≥ s.config.max_reconnect_attempts →
      s.reconnect ok err =
        ({ s with state := ConnectionState.Error "Max reconnection attempts exceeded" },
          false)) ∧
    (∀ (s : SshSession) (ok : Bool) (err : String),
      s.reconnect_attempts < s.config.max_reconnect_attempts →
      s.reconnect_begin.reconnect_attempts = s.reconnect_attempts + 1 ∧
      s.reconnect_begin.state = ConnectionState.Reconnecting ∧
      s.reconnect ok err = s.reconnect_begin.disconnect.connect ok err) ∧
    (∀ (host : Host) (config : SessionConfig) (millis : Nat) (s : SshSession),
      SshSession.new host config millis = some s →
      ∀ calls : List (Bool × String),
        (reconnectRuns s calls).reconnect_attempts ≤
          config.max_reconnect_attempts) := by
  refine ⟨?_, ?_, ?_⟩
  · intro s ok err h
    unfold SshSession.reconnect
    rw [if_pos h]
  · intro s ok err h
    refine ⟨rfl, rfl, ?_⟩
    unfold SshSession.reconnect
    rw [if_neg (by omega)]
  · intro host config millis s hnew calls
    obtain ⟨hcfg, h0⟩ := new_some_fields host config millis s hnew
    have h := reconnectRuns_bound calls s (by omega)
    rwa [reconnectRuns_config, hcfg] at h

/-- Witness for C6: the exhausted example session fails terminally; the
fresh example session increments and transitions; one call keeps the counter
within the default bound of 3. -/
theorem C6_reconnect_bound_witness :
    (exampleSession.reconnect true "x" =
      ({ exampleSession with
          state := ConnectionState.Error "Max reconnection attempts exceeded" },
        false)) ∧
    (exampleSessionNew.reconnect_begin.reconnect_attempts =
        exampleSessionNew.reconnect_attempts + 1 ∧
      exampleSessionNew.reconnect_begin.state = ConnectionState.Reconnecting ∧
      exampleSessionNew.reconnect true "x" =
        exampleSessionNew.reconnect_begin.disconnect.connect true "x") ∧
    ((reconnectRuns exampleSessionNew [(true, "x")]).reconnect_attempts ≤
      SessionConfig.default.max_reconnect_attempts) :=
  ⟨C6_reconnect_bound.1 exampleSession true "x" (by decide),
   C6_reconnect_bound.2.1 exampleSessionNew true "x" (by decide),
   C6_reconnect_bound.2.2 hostEx SessionConfig.default 0 exampleSessionNew
     (by decide) [(true, "x")]⟩

/-- Counterexample to C6 as stated: the terminal state the code sets is
`Error "Max reconnection attempts exceeded"` (capital `M`), not the claimed
`Error "max reconnection attempts exceeded"`. -/
theorem C6_reconnect_message_counterexample :
    (exampleSession.reconnect true "").1.state =
      ConnectionState.Error "Max reconnection attempts exceeded" ∧
    (exampleSession.reconnect true "").1.state ≠
      ConnectionState.Error "max reconnection attempts exceeded" := by
  decide

/-- `leadsWith` recognizes exactly the list-prefix relation. -/
theorem leadsWith_iff (p h : List Char) : leadsWith p h = true ↔ p <+: h := by
  induction p generalizing h with
  | nil => simp [leadsWith, List.nil_prefix]
  | cons a ps ih =>
    cases h with
    | nil => simp [leadsWith, List.prefix_nil]
    | cons b hs =>
      simp [leadsWith, ih, List.cons_prefix_cons, Bool.and_eq_true, beq_iff_eq]

/-- `containsCh` recognizes exactly the contiguous-substring relation. -/
theorem containsCh_iff (pat hay : List Char) :
    containsCh pat hay = true ↔ pat <:+: hay := by
  induction hay with
  | nil => simp [containsCh, leadsWith_iff, List.infix_nil, List.prefix_nil]
  | cons c rest ih =>
    simp [containsCh, leadsWith_iff, ih, List.infix_cons_iff, Bool.or_eq_true]

/-- Membership in `enumFrom` is indexed lookup. -/
theorem mem_enumFrom_iff (n : Nat) (l : List α) (i : Nat) (a : α) :
    (i, a) ∈ List.enumFrom n l ↔ n ≤ i ∧ l.get? (i - n) = some a := by
  induction l generalizing n with
  | nil => simp
  | cons x xs ih =>
    simp only [List.enumFrom, List.mem_cons, ih (n + 1), Prod.mk.injEq]
    constructor
    · rintro (⟨h1, h2⟩ | ⟨h1, h2⟩)
      · subst h1
        subst h2
        simp
      · refine ⟨by omega, ?_⟩
        have hix : i - n = (i - (n + 1)) + 1 := by omega
        rw [hix]
        simpa using h2
    · rintro ⟨h1, h2⟩
      by_cases he : i = n
      · subst he
        simp only [Nat.sub_self, List.get?_cons_zero, Option.some.injEq] at h2
        exact Or.inl ⟨rfl, h2.symm⟩
      · refine Or.inr ⟨by omega, ?_⟩
        have hix : i - n = (i - (n + 1)) + 1 := by omega
        rw [hix] at h2
        simpa using h2

/-- Membership in `enum` is indexed lookup. -/
theorem mem_enum_iff (l : List α) (i : Nat) (a : α) :
    (i, a) ∈ l.enum ↔ l.get? i = some a := by
  simpa using mem_enumFrom_iff 0 l i a

/-- The indices of `enumFrom` are strictly increasing. -/
theorem pairwise_fst_lt_enumFrom (n : Nat) (l : List α) :
    List.Pairwise (fun a b : Nat × α => a.1 < b.1) (List.enumFrom n l) := by
  induction l generalizing n with
  | nil => exact List.Pairwise.nil
  | cons x xs ih =>
    refine List.Pairwise.cons ?_ (ih (n + 1))
    intro b hb
    have hmem := (mem_enumFrom_iff (n + 1) xs b.1 b.2).mp (by simpa using hb)
    show n < b.1
    omega

/-- C7: `search` returns exactly the `(index, line)` pairs of the scrollback
lines whose lowercasing contains the lowercased query as a substring, with
strictly increasing (oldest-first) indices — it reads only the scrollback —
and on `["abc", "XYZ abc", "def"]` with query `"ABC"` it returns the entries
at indices 0 and 1. -/
theorem C7_search_spec :
    (∀ (buf : TerminalBuffer) (q : String) (i : Nat) (l : String),
      (i, l) ∈ buf.search q ↔
        buf.scrollback.get? i = some l ∧
          (lowerStr q).data <:+: (lowerStr l).data) ∧
    (∀ (buf : TerminalBuffer) (q : String),
      List.Pairwise (fun a b : Nat × String => a.1 < b.1) (buf.search q)) ∧
    exampleBuffer.search "ABC" = [(0, "abc"), (1, "XYZ abc")] := by
  refine ⟨?_, ?_, ?_⟩
  · intro buf q i l
    unfold TerminalBuffer.search
    rw [List.mem_filter, mem_enum_iff, containsCh_iff]
  · intro buf q
    exact (pairwise_fst_lt_enumFrom 0 buf.scrollback).filter _
  · decide

/-- A string recognized as empty is the empty string. -/
theorem str_isEmpty_eq (s : String) (h : s.isEmpty = true) : s = "" :=
  (String.isEmpty_iff s).mp h

/-- C8: the tab label always equals `[<id>:<name><activity-suffix>]` with
the suffix concatenating `*`, `!`, `@` in that fixed order (empty when no
flag is set); the example session labels as `[3:prod-web*!]`; and the `▶`
marker is added only by the tab-bar renderer — a non-active tab's rendered
entry is exactly the stored label. -/
theorem C8_tab_label :
    (∀ s : Session, s.tab_display_name = tab_label_spec s.id s.host.name s.activity) ∧
    (Session.tab_display_name
        { id := 3
          host := hostEx
          ssh_process := none
          is_active := false
          status := SessionStatus.Connected
          activity :=
            { has_new_output := true, has_error := true, has_background_activity := false }
          last_activity := none } = "[3:prod-web*!]") ∧
    (∀ (m : TabManager) (i : Nat) (s : Session), m.sessions.get? i = some s →
      i ≠ m.current_session_index →
      m.tab_bar_entries.get? i = some s.tab_display_name) := by
  refine ⟨?_, ?_, ?_⟩
  · intro s
    unfold Session.tab_display_name tab_label_spec activity_suffix
    by_cases he :
      ((if s.activity.has_new_output then "*" else "")
        ++ (if s.activity.has_error then "!" else "")
        ++ (if s.activity.has_background_activity then "@" else "") : String).isEmpty
    · rw [if_pos he, str_isEmpty_eq _ he, String.append_empty]
    · rw [if_neg he]
  · decide
  · intro m i s hget hne
    unfold TabManager.tab_bar_entries
    rw [ List.get?_map, enum_get?, hget]
    simp [hne]

/-- Witness for C8 on the first session of the example registry (a
non-active tab, rendered without the marker). -/
theorem C8_tab_label_witness :
    ((Session.new 1 hostEx).tab_display_name =
      tab_label_spec (Session.new 1 hostEx).id (Session.new 1 hostEx).host.name
        (Session.new 1 hostEx).activity) ∧
    (exampleManager3.tab_bar_entries.get? 0 =
      some (Session.new 1 hostEx).tab_display_name) :=
  ⟨C8_tab_label.1 (Session.new 1 hostEx),
   C8_tab_label.2.2 exampleManager3 0 (Session.new 1 hostEx) (by decide) (by decide)⟩

/-- C9: switching (with activity clearing) to 1-based tab `n` fails and
leaves the manager unchanged when `n = 0` or `n > count`; otherwise it
succeeds, sets the active index to `n - 1`, clears the new-output indicator
of the newly active session and leaves every other session unchanged. -/
theorem C9_switch_to_session_spec (m : TabManager) (n : Nat) :
    ((n = 0 ∨ n > m.session_count) →
      m.switch_to_session_and_clear_activity n = (m, false)) ∧
    (1 ≤ n → n ≤ m.session_count →
      (m.switch_to_session_and_clear_activity n).2 = true ∧
      (m.switch_to_session_and_clear_activity n).1.current_session_index = n - 1 ∧
      (m.switch_to_session_and_clear_activity n).1.sessions.get? (n - 1) =
        (m.sessions.get? (n - 1)).map Session.clear_activity_indicators ∧
      ∀ j, j ≠ n - 1 →
        (m.switch_to_session_and_clear_activity n).1.sessions.get? j =
          m.sessions.get? j) := by
  constructor
  · intro h
    exact switch_clear_invalid m n (by simpa [TabManager.session_count] using h)
  · intro h1 h2
    simp only [TabManager.session_count] at h2
    have hg : ¬ (n = 0 ∨ n > m.sessions.length) := by
      push_neg
      exact ⟨by omega, by omega⟩
    rw [switch_clear_valid m n hg]
    refine ⟨rfl, rfl, ?_, ?_⟩
    · exact modifyAt_get?_self _ _ _
    · intro j hj
      exact modifyAt_get?_ne _ _ _ _ hj

/-- Witness for C9: switching to tab 5 of three fails unchanged; switching
to tab 1 clears the new-output flag of session 0 and keeps session 2. -/
theorem C9_switch_to_session_spec_witness :
    (exampleManager3.switch_to_session_and_clear_activity 5 =
      (exampleManager3, false)) ∧
    ((exampleManager3.switch_to_session_and_clear_activity 1).1.sessions.get? 0 =
      (exampleManager3.sessions.get? 0).map Session.clear_activity_indicators) ∧
    ((exampleManager3.switch_to_session_and_clear_activity 1).1.sessions.get? 2 =
      exampleManager3.sessions.get? 2) :=
  ⟨(C9_switch_to_session_spec exampleManager3 5).1 (by decide),
   ((C9_switch_to_session_spec exampleManager3 1).2 (by decide) (by decide)).2.2.1,
   ((C9_switch_to_session_spec exampleManager3 1).2 (by decide) (by decide)).2.2.2 2
     (by decide)⟩

/-- C10: `generate_display_name` byte-slices the first 12 bytes of any name
longer than 15 bytes; on the valid UTF-8 name `"aaaaaaaaaaaéaaaa"` (17
bytes, byte 12 inside the two-byte `é`) the slice is not on a character
boundary and the function panics (`none`), as does `SshSession::new` for a
host with that name; a short name such as `"prod-web"` is returned
unchanged. -/
theorem C10_display_name_truncation_panics :
    SshSession.generate_display_name (utf8Bytes "aaaaaaaaaaaéaaaa") = none ∧
    (utf8Bytes "aaaaaaaaaaaéaaaa").length = 17 ∧
    SshSession.new { hostEx with name := "aaaaaaaaaaaéaaaa" }
      SessionConfig.default 0 = none ∧
    SshSession.generate_display_name (utf8Bytes "prod-web") =
      some (utf8Bytes "prod-web") := by
  decide

end Sshs
